import Mathlib

/-!
Shallow embedding of the Spotter HOS (hours-of-service) scheduling core,
translated from `backend/trips/hos_calculator.py`, together with the request
validation of `backend/trips/serializers.py` / `backend/trips/views.py`.

Hours and miles are modelled as exact rationals; the wall-clock date is
injected as an integer day offset (`today`), per the specification's note
that date stamping is a pure function of an injected "today".  Compliance
messages are modelled structurally: each distinct message of
`check_compliance` becomes a constructor carrying the measured value that the
Python code interpolates (formatted to one decimal) into the string.
-/

/-- Duty status enumeration, mirroring the four `DUTY_STATUS_CHOICES` strings
used throughout `hos_calculator.py`. -/
inductive DutyStatus
  | OFF_DUTY
  | SLEEPER_BERTH
  | DRIVING
  | ON_DUTY
deriving DecidableEq, Repr, Inhabited

open DutyStatus

/-- One timeline entry, mirroring the dictionaries appended to `timeline`
in `hos_calculator.py` (status, start_hour, end_hour, duration, location,
description). -/
structure DutySegment where
  status : DutyStatus
  start_hour : ℚ
  end_hour : ℚ
  duration : ℚ
  location : String
  description : String
deriving DecidableEq, Repr, Inhabited

/-- Per-day accumulated hours per duty status, mirroring the `totals`
dictionary of `_calculate_daily_totals`. -/
structure DayTotals where
  off_duty : ℚ
  sleeper_berth : ℚ
  driving : ℚ
  on_duty : ℚ
deriving DecidableEq, Repr, Inhabited

/-- One per-day log sheet, mirroring the dictionaries appended to
`log_sheets` in the two generators.  `date` is an absolute day number
(injected base date plus an offset). -/
structure LogSheet where
  day_number : ℤ
  date : ℤ
  timeline : List DutySegment
  totals : DayTotals
  remarks : String
  total_miles : ℚ
deriving DecidableEq, Repr, Inhabited

/-- The full result dictionary returned by `calculate_trip`. -/
structure TripPlan where
  num_days : ℤ
  total_distance_miles : ℚ
  total_driving_hours : ℚ
  total_on_duty_hours : ℚ
  is_compliant : Bool
  compliance_notes : String
  log_sheets : List LogSheet
deriving DecidableEq, Repr, Inhabited

/-- Structural model of the distinct messages `check_compliance` can return.
The payload is the measured value the Python code renders to one decimal. -/
inductive ComplianceMsg
  | exceedsDrivingLimit (hours : ℚ)
  | exceedsDutyWindow (hours : ℚ)
  | missingBreak
  | compliant
deriving DecidableEq, Repr, Inhabited

/-! ## HOS constants (`HOSCalculator` class attributes) -/

def MAX_DRIVING_HOURS : ℚ := 11
def MAX_DRIVING_WINDOW : ℚ := 14
def MIN_OFF_DUTY_HOURS : ℚ := 10
def BREAK_REQUIRED_AFTER_DRIVING : ℚ := 8
def MIN_BREAK_DURATION : ℚ := 1/2
def MAX_CYCLE_HOURS : ℚ := 70
def CYCLE_DAYS : ℚ := 8
def AVERAGE_SPEED_MPH : ℚ := 60
def PICKUP_DROPOFF_TIME : ℚ := 1
def FUEL_STOP_INTERVAL_MILES : ℚ := 1000
def FUEL_STOP_DURATION : ℚ := 1/2

/-! ## Totals aggregation (`_calculate_daily_totals`) -/

/-- One loop iteration of `_calculate_daily_totals`: add the entry's
duration to the bucket selected by its status. -/
def add_entry (t : DayTotals) (e : DutySegment) : DayTotals :=
  match e.status with
  | OFF_DUTY => { t with off_duty := t.off_duty + e.duration }
  | SLEEPER_BERTH => { t with sleeper_berth := t.sleeper_berth + e.duration }
  | DRIVING => { t with driving := t.driving + e.duration }
  | ON_DUTY => { t with on_duty := t.on_duty + e.duration }

/-- Translation of `_calculate_daily_totals`: fold the timeline into a
zero-initialised `DayTotals`. -/
def calculate_daily_totals (timeline : List DutySegment) : DayTotals :=
  timeline.foldl add_entry ⟨0, 0, 0, 0⟩

/-! ## Compliance checking (`check_compliance`) -/

/-- Translation of the break-requirement loop of `check_compliance`,
with the running `cumulative_driving` and `had_break` state made explicit.
Returns `false` exactly when the Python loop hits its early
`return False, "Missing required 30-minute break after 8 hours driving"`. -/
def break_scan : List DutySegment → ℚ → Bool → Bool
  | [], _, _ => true
  | e :: rest, cumulative_driving, had_break =>
    match e.status with
    | DRIVING =>
      let c := cumulative_driving + e.duration
      if BREAK_REQUIRED_AFTER_DRIVING < c ∧ had_break = false then false
      else break_scan rest c had_break
    | _ =>
      break_scan rest cumulative_driving
        (had_break || decide (MIN_BREAK_DURATION ≤ e.duration))

/-- Translation of `check_compliance`: the 11-hour driving check, the
14-hour window check, then the 30-minute-break scan, short-circuiting in
that order. -/
def check_compliance (timeline : List DutySegment) : Bool × ComplianceMsg :=
  let totals := calculate_daily_totals timeline
  if MAX_DRIVING_HOURS < totals.driving then
    (false, ComplianceMsg.exceedsDrivingLimit totals.driving)
  else
    let total_duty := totals.driving + totals.on_duty
    if MAX_DRIVING_WINDOW < total_duty then
      (false, ComplianceMsg.exceedsDutyWindow total_duty)
    else if break_scan timeline 0 false = false then
      (false, ComplianceMsg.missingBreak)
    else
      (true, ComplianceMsg.compliant)

/-! ## Single-day generation (`_generate_single_day_trip`) -/

/-- Timeline built by `_generate_single_day_trip`, with the running
`current_hour` values written out.  The Python `0.2` / `0.8` route split
is the exact 1/5 / 4/5 split on rationals. -/
def single_day_timeline (distance_miles : ℚ) (breaks_needed : ℤ)
    (current_location pickup_location dropoff_location : String) :
    List DutySegment :=
  let time_to_pickup := distance_miles * (1/5) / AVERAGE_SPEED_MPH
  let time_to_dropoff := distance_miles * (4/5) / AVERAGE_SPEED_MPH
  let h1 : ℚ := 6
  let h2 := h1 + 1/2
  let h3 := h2 + time_to_pickup
  let h4 := h3 + PICKUP_DROPOFF_TIME
  let head :=
    [⟨OFF_DUTY, 0, 6, 6, current_location, "Off duty - rest before trip"⟩,
     ⟨ON_DUTY, h1, h2, 1/2, current_location, "Pre-trip inspection, paperwork"⟩,
     ⟨DRIVING, h2, h3, time_to_pickup, current_location ++ " to " ++ pickup_location,
       "Driving to pickup location"⟩,
     ⟨ON_DUTY, h3, h4, PICKUP_DROPOFF_TIME, pickup_location, "Loading cargo, paperwork"⟩]
  let middle :=
    if 0 < breaks_needed then
      let drive_before_break := min BREAK_REQUIRED_AFTER_DRIVING (time_to_dropoff / 2)
      let h5 := h4 + drive_before_break
      let h6 := h5 + MIN_BREAK_DURATION
      let remaining_drive := time_to_dropoff - drive_before_break
      [⟨DRIVING, h4, h5, drive_before_break,
         pickup_location ++ " to " ++ dropoff_location, "Driving to dropoff"⟩,
       ⟨ON_DUTY, h5, h6, MIN_BREAK_DURATION, "Highway fuel stop", "Fuel stop (30-min break)"⟩,
       ⟨DRIVING, h6, h6 + remaining_drive, remaining_drive,
         "En route to " ++ dropoff_location, "Driving to dropoff"⟩]
    else
      [⟨DRIVING, h4, h4 + time_to_dropoff, time_to_dropoff,
         pickup_location ++ " to " ++ dropoff_location, "Driving to dropoff"⟩]
  let h7 := h4 + time_to_dropoff + (if 0 < breaks_needed then MIN_BREAK_DURATION else 0)
  let h8 := h7 + PICKUP_DROPOFF_TIME
  let h9 := h8 + 1/2
  let tail :=
    [⟨ON_DUTY, h7, h8, PICKUP_DROPOFF_TIME, dropoff_location, "Unloading cargo, paperwork"⟩,
     ⟨ON_DUTY, h8, h9, 1/2, dropoff_location, "Post-trip inspection, log completion"⟩,
     ⟨OFF_DUTY, h9, 24, 24 - h9, dropoff_location, "Off duty"⟩]
  head ++ middle ++ tail

/-- Remarks string assembled by `_generate_single_day_trip`. -/
def single_day_remarks (breaks_needed : ℤ)
    (current_location pickup_location dropoff_location : String) : String :=
  String.intercalate " | "
    (["6:00 AM - Report for duty at " ++ current_location,
      "Arrived at " ++ pickup_location] ++
     (if 0 < breaks_needed then ["Fuel stop - satisfies 30-minute break requirement"] else []) ++
     ["Arrived at " ++ dropoff_location,
      "Off duty at " ++ dropoff_location])

/-- Translation of `_generate_single_day_trip`.  The `driving_hours`,
`total_duty_hours` and `num_fuel_stops` arguments are accepted (as in the
Python signature) but unused by the body, exactly as in the source. -/
def generate_single_day_trip (distance_miles driving_hours total_duty_hours : ℚ)
    (num_fuel_stops breaks_needed : ℤ)
    (current_location pickup_location dropoff_location : String)
    (today : ℤ) : TripPlan :=
  let timeline := single_day_timeline distance_miles breaks_needed
      current_location pickup_location dropoff_location
  let totals := calculate_daily_totals timeline
  { num_days := 1
    total_distance_miles := distance_miles
    total_driving_hours := totals.driving
    total_on_duty_hours := totals.on_duty + totals.driving
    is_compliant := true
    compliance_notes := "Trip complies with all HOS regulations"
    log_sheets :=
      [{ day_number := 1
         date := today
         timeline := timeline
         totals := totals
         remarks := single_day_remarks breaks_needed
             current_location pickup_location dropoff_location
         total_miles := distance_miles }] }

/-! ## Multi-day generation (`_generate_multi_day_trip`) -/

/-- Timeline built for one day of `_generate_multi_day_trip`, with the
running `current_hour` values written out. -/
def multi_day_timeline (is_first_day is_last_day : Bool) (daily_driving : ℚ)
    (current_location pickup_location dropoff_location : String) :
    List DutySegment :=
  let start_loc := if is_first_day then current_location else "Rest area"
  let h2 : ℚ := 6 + 1/2
  let h3 := if is_first_day then h2 + 2 else h2
  let drive_before_break := min 8 (daily_driving / 2)
  let h4 := h3 + drive_before_break
  let h5 := h4 + 1/2
  let remaining := min 3 (daily_driving - drive_before_break)
  let h6 := h5 + remaining
  let h7 := if is_last_day then h6 + 1 else h6
  [⟨OFF_DUTY, 0, 6, 6, start_loc, "Off duty - 10-hour rest"⟩,
   ⟨ON_DUTY, 6, h2, 1/2, start_loc, "Pre-trip inspection"⟩] ++
  (if is_first_day then
    [⟨DRIVING, h2, h2 + 1, 1, current_location ++ " to " ++ pickup_location, "Drive to pickup"⟩,
     ⟨ON_DUTY, h2 + 1, h2 + 2, 1, pickup_location, "Loading"⟩]
   else []) ++
  [⟨DRIVING, h3, h4, drive_before_break, "En route", "Driving"⟩,
   ⟨ON_DUTY, h4, h5, 1/2, "Rest stop", "Break/fuel"⟩,
   ⟨DRIVING, h5, h6, remaining, "En route", "Driving"⟩] ++
  (if is_last_day then [⟨ON_DUTY, h6, h7, 1, dropoff_location, "Unloading"⟩] else []) ++
  [⟨OFF_DUTY, h7, 24, 24 - h7,
    if is_last_day then dropoff_location else "Rest area", "Off duty - 10-hour rest"⟩]

/-- One `log_sheets` entry of `_generate_multi_day_trip` (loop body for a
given 0-based `day` index). -/
def multi_day_sheet (miles_per_day : ℚ) (days_needed : ℕ) (day : ℕ)
    (current_location pickup_location dropoff_location : String)
    (today : ℤ) : LogSheet :=
  let is_first_day : Bool := day = 0
  let is_last_day : Bool := day = days_needed - 1
  let daily_miles := miles_per_day
  let daily_driving := daily_miles / AVERAGE_SPEED_MPH
  let timeline := multi_day_timeline is_first_day is_last_day daily_driving
      current_location pickup_location dropoff_location
  let remark_items :=
    (if is_first_day then ["Picked up load at " ++ pickup_location] else []) ++
    (if is_last_day then ["Delivered load at " ++ dropoff_location] else [])
  { day_number := (day : ℤ) + 1
    date := today + (day : ℤ)
    timeline := timeline
    totals := calculate_daily_totals timeline
    remarks :=
      if remark_items.isEmpty then "Day " ++ toString (day + 1) ++ " of trip"
      else String.intercalate " | " remark_items
    total_miles := daily_miles }

/-- Translation of `_generate_multi_day_trip`. -/
def generate_multi_day_trip (distance_miles driving_hours : ℚ)
    (current_location pickup_location dropoff_location : String)
    (today : ℤ) : TripPlan :=
  let days_needed : ℕ := (⌈driving_hours / MAX_DRIVING_HOURS⌉).toNat
  let miles_per_day := distance_miles / (days_needed : ℚ)
  let log_sheets := (List.range days_needed).map fun day =>
    multi_day_sheet miles_per_day days_needed day
      current_location pickup_location dropoff_location today
  let total_driving := (log_sheets.map fun s => s.totals.driving).sum
  let total_on_duty := (log_sheets.map fun s => s.totals.driving + s.totals.on_duty).sum
  { num_days := (days_needed : ℤ)
    total_distance_miles := distance_miles
    total_driving_hours := total_driving
    total_on_duty_hours := total_on_duty
    is_compliant := true
    compliance_notes :=
      "Multi-day trip - " ++ toString days_needed ++ " days required for HOS compliance"
    log_sheets := log_sheets }

/-! ## Top-level dispatch (`calculate_trip`) -/

/-- The `single_day_possible` boolean computed in `calculate_trip`. -/
def single_day_possible (distance_miles current_cycle_hours : ℚ) : Bool :=
  let driving_hours := distance_miles / AVERAGE_SPEED_MPH
  let num_fuel_stops : ℤ := ⌊distance_miles / FUEL_STOP_INTERVAL_MILES⌋
  let total_on_duty_hours := driving_hours + 2 * PICKUP_DROPOFF_TIME
  let total_duty_hours := total_on_duty_hours + (num_fuel_stops : ℚ) * FUEL_STOP_DURATION
  decide (driving_hours ≤ MAX_DRIVING_HOURS) &&
    decide (total_duty_hours ≤ MAX_DRIVING_WINDOW) &&
    decide (current_cycle_hours + total_duty_hours ≤ MAX_CYCLE_HOURS)

/-- Translation of `calculate_trip`: compute the projected hours, decide
single-day feasibility, and dispatch to the matching generator. -/
def calculate_trip (distance_miles current_cycle_hours : ℚ)
    (current_location pickup_location dropoff_location : String)
    (today : ℤ) : TripPlan :=
  let driving_hours := distance_miles / AVERAGE_SPEED_MPH
  let num_fuel_stops : ℤ := ⌊distance_miles / FUEL_STOP_INTERVAL_MILES⌋
  let total_on_duty_hours := driving_hours + 2 * PICKUP_DROPOFF_TIME
  let breaks_needed : ℤ := ⌊driving_hours / BREAK_REQUIRED_AFTER_DRIVING⌋
  let total_duty_hours := total_on_duty_hours + (num_fuel_stops : ℚ) * FUEL_STOP_DURATION
  if single_day_possible distance_miles current_cycle_hours then
    generate_single_day_trip distance_miles driving_hours total_duty_hours
      num_fuel_stops breaks_needed
      current_location pickup_location dropoff_location today
  else
    generate_multi_day_trip distance_miles driving_hours
      current_location pickup_location dropoff_location today

/-! ## Request validation (`TripCreateSerializer` / `views.create`) -/

/-- Translation of the `TripCreateSerializer` field validation: the three
location `CharField`s are required, non-blank and at most 255 characters;
`current_cycle_hours` is a float in `[0, 70]`. -/
def trip_create_valid (current_cycle_hours : ℚ)
    (current_location pickup_location dropoff_location : String) : Bool :=
  !(current_location = "") && decide (current_location.length ≤ 255) &&
  !(pickup_location = "") && decide (pickup_location.length ≤ 255) &&
  !(dropoff_location = "") && decide (dropoff_location.length ≤ 255) &&
  decide (0 ≤ current_cycle_hours) && decide (current_cycle_hours ≤ 70)

/-- Translation of the `TripViewSet.create` control flow relevant to the
core: serializer validation happens first and rejects the request (`none`)
before the HOS calculator runs; the route distance arrives pre-resolved as
`distance_miles` and is never itself validated. -/
def handle_create (distance_miles current_cycle_hours : ℚ)
    (current_location pickup_location dropoff_location : String)
    (today : ℤ) : Option TripPlan :=
  if trip_create_valid current_cycle_hours
      current_location pickup_location dropoff_location then
    some (calculate_trip distance_miles current_cycle_hours
      current_location pickup_location dropoff_location today)
  else
    none

/-! ## Specification predicates -/

/-- Decidable check that a segment list, started at clock value `t`,
forms an exact partition of `[t, 24]`: each segment starts where the
previous one ended, stores `duration = end_hour - start_hour ≥ 0`, and the
final segment ends at 24.  `covers_from 0 l` therefore expresses the
DayPlan invariant: first segment starts at 0, consecutive segments abut
(no gap, no overlap), start hours are non-decreasing, and the union of the
ranges is `[0, 24]`. -/
def covers_from : ℚ → List DutySegment → Bool
  | t, [] => decide (t = 24)
  | t, s :: rest =>
    decide (s.start_hour = t) && decide (s.duration = s.end_hour - s.start_hour) &&
      decide (0 ≤ s.duration) && covers_from s.end_hour rest

/-- A timeline partitions `[0, 24]` exactly. -/
def partitions24 (l : List DutySegment) : Bool := covers_from 0 l

/-- Sum of the durations of the segments having a given status. -/
def status_sum (st : DutyStatus) (l : List DutySegment) : ℚ :=
  ((l.filter fun e => decide (e.status = st)).map fun e => e.duration).sum

/-- Sum of all segment durations. -/
def duration_sum (l : List DutySegment) : ℚ := (l.map fun e => e.duration).sum

/-- Sum of the durations of the Driving segments. -/
def driving_sum (l : List DutySegment) : ℚ := status_sum DRIVING l

/-- A segment that sets the `had_break` flag of the compliance scan: status
OnDuty, OffDuty or SleeperBerth, with duration at least the minimum break
duration. -/
def is_qualifying_break (e : DutySegment) : Prop :=
  (e.status = ON_DUTY ∨ e.status = OFF_DUTY ∨ e.status = SLEEPER_BERTH) ∧
    MIN_BREAK_DURATION ≤ e.duration

/-- Declarative description of when the break scan fails: some Driving
segment brings the cumulative driving total (accumulated over all Driving
segments up to and including it, never reset) above the 8-hour threshold
while no qualifying break occurs anywhere earlier in scan order. -/
def scan_fails_spec (l : List DutySegment) : Prop :=
  ∃ l₁ e l₂, l = l₁ ++ e :: l₂ ∧ e.status = DRIVING ∧
    BREAK_REQUIRED_AFTER_DRIVING < driving_sum (l₁ ++ [e]) ∧
    ∀ b ∈ l₁, ¬ is_qualifying_break b

/-! ## Aggregation lemmas -/

lemma status_sum_nil (st : DutyStatus) : status_sum st [] = 0 := rfl

lemma status_sum_cons (st : DutyStatus) (e : DutySegment) (l : List DutySegment) :
    status_sum st (e :: l) =
      (if e.status = st then e.duration else 0) + status_sum st l := by
  by_cases h : e.status = st <;> simp [status_sum, List.filter_cons, h]

lemma status_sum_append (st : DutyStatus) (l₁ l₂ : List DutySegment) :
    status_sum st (l₁ ++ l₂) = status_sum st l₁ + status_sum st l₂ := by
  induction l₁ with
  | nil => simp [status_sum_nil]
  | cons e l ih => simp only [List.cons_append, status_sum_cons, ih]; ring

/-- The totals fold computes exactly the per-status duration sums, for any
starting accumulator. -/
lemma foldl_add_entry (l : List DutySegment) (acc : DayTotals) :
    l.foldl add_entry acc =
      ⟨acc.off_duty + status_sum OFF_DUTY l,
       acc.sleeper_berth + status_sum SLEEPER_BERTH l,
       acc.driving + status_sum DRIVING l,
       acc.on_duty + status_sum ON_DUTY l⟩ := by
  induction l generalizing acc with
  | nil => simp [status_sum_nil]
  | cons e l ih =>
    rw [List.foldl_cons, ih]
    rcases e with ⟨st, sh, eh, du, loc, de⟩
    cases st <;> simp [add_entry, status_sum_cons, add_assoc]

/-- `_calculate_daily_totals` maps each status to the sum of the durations
of the segments having that status. -/
lemma calculate_daily_totals_eq (l : List DutySegment) :
    calculate_daily_totals l =
      ⟨status_sum OFF_DUTY l, status_sum SLEEPER_BERTH l,
       status_sum DRIVING l, status_sum ON_DUTY l⟩ := by
  simp [calculate_daily_totals, foldl_add_entry]

/-- The four per-status sums add up to the total duration. -/
lemma status_sums_total (l : List DutySegment) :
    status_sum OFF_DUTY l + status_sum SLEEPER_BERTH l +
      status_sum DRIVING l + status_sum ON_DUTY l = duration_sum l := by
  induction l with
  | nil => simp [status_sum_nil, duration_sum]
  | cons e l ih =>
    rcases e with ⟨st, sh, eh, du, loc, de⟩
    cases st <;>
      simp only [status_sum_cons, duration_sum, List.map_cons, List.sum_cons] at ih ⊢ <;>
      simp <;> linarith

/-- A timeline that covers `[t, 24]` has total duration `24 - t`. -/
lemma covers_duration_sum (l : List DutySegment) :
    ∀ t : ℚ, covers_from t l = true → duration_sum l = 24 - t := by
  induction l with
  | nil =>
    intro t h
    simp only [covers_from, decide_eq_true_eq] at h
    simp [duration_sum, h]
  | cons s rest ih =>
    intro t h
    simp only [covers_from, Bool.and_eq_true, decide_eq_true_eq] at h
    obtain ⟨⟨⟨h1, h2⟩, h3⟩, h4⟩ := h
    have hr := ih s.end_hour h4
    simp only [duration_sum, List.map_cons, List.sum_cons] at hr ⊢
    rw [hr, h2, ← h1]
    ring

/-- The stored totals of a day whose timeline covers `[0, 24]` sum to 24. -/
lemma totals_sum_24 (l : List DutySegment) (h : partitions24 l = true) :
    (calculate_daily_totals l).off_duty + (calculate_daily_totals l).sleeper_berth +
      (calculate_daily_totals l).driving + (calculate_daily_totals l).on_duty = 24 := by
  rw [calculate_daily_totals_eq]
  show status_sum OFF_DUTY l + status_sum SLEEPER_BERTH l +
      status_sum DRIVING l + status_sum ON_DUTY l = 24
  rw [status_sums_total l, covers_duration_sum l 0 h]
  norm_num

/-! ## Timeline shape lemmas -/

/-- The single-day timeline partitions `[0, 24]` whenever the distance is
nonnegative and the projected driving time is within the 11-hour limit. -/
lemma single_day_timeline_covers (d : ℚ) (b : ℤ)
    (cur pick drop : String) (hd : 0 ≤ d) (hmax : d / 60 ≤ 11) :
    partitions24 (single_day_timeline d b cur pick drop) = true := by
  have h1 : (0:ℚ) ≤ d * (1/5) / 60 := by positivity
  have h2 : (0:ℚ) ≤ d * (4/5) / 60 := by positivity
  have h3 : min (8:ℚ) (d * (4/5) / 60 / 2) ≤ d * (4/5) / 60 :=
    le_trans (min_le_right _ _) (by linarith)
  have h4 : (0:ℚ) ≤ min (8:ℚ) (d * (4/5) / 60 / 2) :=
    le_min (by norm_num) (by positivity)
  have h5 : d * (1/5) / 60 + d * (4/5) / 60 = d / 60 := by ring
  by_cases hb : 0 < b
  · simp only [partitions24, single_day_timeline, hb, if_true, if_false,
      BREAK_REQUIRED_AFTER_DRIVING, MIN_BREAK_DURATION, PICKUP_DROPOFF_TIME,
      AVERAGE_SPEED_MPH, List.cons_append, List.nil_append, covers_from,
      Bool.and_eq_true, decide_eq_true_eq]
    norm_num
    repeat' apply And.intro
    all_goals try ring1
    all_goals try positivity
    all_goals try linarith [min_le_right (8:ℚ) (d*(4/5)/60/2), min_le_left (8:ℚ) (d*(4/5)/60/2)]
    all_goals exact Or.inr (by positivity)
  · simp only [partitions24, single_day_timeline, hb, if_true, if_false,
      BREAK_REQUIRED_AFTER_DRIVING, MIN_BREAK_DURATION, PICKUP_DROPOFF_TIME,
      AVERAGE_SPEED_MPH, List.cons_append, List.nil_append, covers_from,
      Bool.and_eq_true, decide_eq_true_eq]
    norm_num
    repeat' apply And.intro
    all_goals try ring1
    all_goals try positivity
    all_goals try linarith

/-- Every day of the multi-day template partitions `[0, 24]` whenever the
daily driving time is nonnegative. -/
lemma multi_day_timeline_covers (f l : Bool) (dd : ℚ)
    (cur pick drop : String) (hdd : 0 ≤ dd) :
    partitions24 (multi_day_timeline f l dd cur pick drop) = true := by
  have h1 : min (8:ℚ) (dd/2) ≤ dd/2 := min_le_right _ _
  have h2 : (0:ℚ) ≤ min (8:ℚ) (dd/2) := le_min (by norm_num) (by positivity)
  have h3 : min (8:ℚ) (dd/2) ≤ 8 := min_le_left _ _
  have h4 : (0:ℚ) ≤ min (3:ℚ) (dd - min 8 (dd/2)) := le_min (by norm_num) (by linarith)
  have h5 : min (3:ℚ) (dd - min 8 (dd/2)) ≤ 3 := min_le_left _ _
  cases f <;> cases l <;>
    simp only [partitions24, multi_day_timeline, List.cons_append, List.nil_append,
      Bool.if_true_left, if_true, if_false, Bool.false_eq_true, Bool.true_eq_false,
      covers_from, Bool.and_eq_true, decide_eq_true_eq, ite_true, ite_false] <;>
    norm_num <;>
    repeat' apply And.intro <;>
    all_goals try ring1
  all_goals try linarith
  all_goals exact Or.inr hdd

/-- Exact per-status totals of the single-day timeline: driving time is
exactly `distance / 60`, on-duty (non-driving) time is 3 hours, plus the
half-hour fuel-stop break when `breaks_needed > 0`. -/
lemma single_day_totals (d : ℚ) (b : ℤ) (cur pick drop : String) :
    (calculate_daily_totals (single_day_timeline d b cur pick drop)).driving = d / 60 ∧
    (calculate_daily_totals (single_day_timeline d b cur pick drop)).on_duty
      = 3 + (if 0 < b then (1:ℚ)/2 else 0) := by
  by_cases hb : 0 < b <;>
    simp only [single_day_timeline, hb, if_true, if_false, ite_true, ite_false,
      MIN_BREAK_DURATION, PICKUP_DROPOFF_TIME, AVERAGE_SPEED_MPH,
      BREAK_REQUIRED_AFTER_DRIVING, List.cons_append, List.nil_append,
      calculate_daily_totals_eq, status_sum_cons, status_sum_nil] <;>
    simp [status_sum_cons, status_sum_nil] <;> try constructor <;> try ring1
  all_goals norm_num

/-- Exact per-status totals of one multi-day template day. -/
lemma multi_day_totals (f l : Bool) (dd : ℚ) (cur pick drop : String) :
    (calculate_daily_totals (multi_day_timeline f l dd cur pick drop)).driving
      = (if f then (1:ℚ) else 0) + min 8 (dd/2) + min 3 (dd - min 8 (dd/2)) ∧
    (calculate_daily_totals (multi_day_timeline f l dd cur pick drop)).on_duty
      = 1 + (if f then (1:ℚ) else 0) + (if l then (1:ℚ) else 0) := by
  cases f <;> cases l <;>
    simp only [multi_day_timeline, if_true, if_false, ite_true, ite_false,
      List.cons_append, List.nil_append,
      calculate_daily_totals_eq, status_sum_cons, status_sum_nil] <;>
    simp [status_sum_cons, status_sum_nil] <;> try constructor <;> try ring1
  all_goals norm_num

/-! ## Plan-level helper lemmas -/

/-- The `single_day_possible` boolean unfolds to the three arithmetic
conditions of the decision rule (fuel-stop duty time included, additional
non-fuel breaks not included). -/
lemma single_day_possible_iff (d c : ℚ) :
    single_day_possible d c = true ↔
      d / 60 ≤ 11 ∧ d / 60 + 2 * 1 + (⌊d / 1000⌋ : ℚ) * (1/2) ≤ 14 ∧
        c + (d / 60 + 2 * 1 + (⌊d / 1000⌋ : ℚ) * (1/2)) ≤ 70 := by
  simp [single_day_possible, MAX_DRIVING_HOURS, MAX_DRIVING_WINDOW, MAX_CYCLE_HOURS,
    AVERAGE_SPEED_MPH, FUEL_STOP_INTERVAL_MILES, PICKUP_DROPOFF_TIME, FUEL_STOP_DURATION,
    and_assoc]

/-- `calculate_trip` is exactly the guarded dispatch between the two
generators, with the intermediate quantities written out. -/
lemma calculate_trip_dispatch (d c : ℚ) (cur pick drop : String) (today : ℤ) :
    calculate_trip d c cur pick drop today =
      if single_day_possible d c then
        generate_single_day_trip d (d / 60) (d / 60 + 2 * 1 + (⌊d / 1000⌋ : ℚ) * (1/2))
          ⌊d / 1000⌋ ⌊d / 60 / 8⌋ cur pick drop today
      else generate_multi_day_trip d (d / 60) cur pick drop today := rfl

/-- Any sheet of a multi-day plan is the sheet of some day index below
`days_needed`. -/
lemma mem_multi_log_sheets {sheet : LogSheet} {d dh : ℚ} {cur pick drop : String} {today : ℤ}
    (h : sheet ∈ (generate_multi_day_trip d dh cur pick drop today).log_sheets) :
    ∃ day < (⌈dh / MAX_DRIVING_HOURS⌉).toNat,
      sheet = multi_day_sheet (d / (((⌈dh / MAX_DRIVING_HOURS⌉).toNat : ℕ) : ℚ))
        (⌈dh / MAX_DRIVING_HOURS⌉).toNat day cur pick drop today := by
  simp only [generate_multi_day_trip, List.mem_map, List.mem_range] at h
  obtain ⟨day, hday, rfl⟩ := h
  exact ⟨day, hday, rfl⟩

/-- For a positive distance the number of days is at least one and the
per-day driving time lies in `[0, 11]`. -/
lemma daily_driving_bounds (d : ℚ) (hd : 0 < d) :
    1 ≤ (⌈(d / 60) / MAX_DRIVING_HOURS⌉).toNat ∧
    0 ≤ d / (((⌈(d / 60) / MAX_DRIVING_HOURS⌉).toNat : ℕ) : ℚ) / 60 ∧
    d / (((⌈(d / 60) / MAX_DRIVING_HOURS⌉).toNat : ℕ) : ℚ) / 60 ≤ 11 := by
  rw [MAX_DRIVING_HOURS]
  have hdh : 0 < d / 60 := by positivity
  have hpos : 0 < ⌈(d / 60) / (11:ℚ)⌉ := Int.ceil_pos.mpr (by positivity)
  have hle : (d / 60) / 11 ≤ ((⌈(d / 60) / (11:ℚ)⌉ : ℤ) : ℚ) := Int.le_ceil _
  have hcast : (((⌈(d / 60) / (11:ℚ)⌉).toNat : ℕ) : ℚ) = ((⌈(d / 60) / (11:ℚ)⌉ : ℤ) : ℚ) := by
    rw [← Int.cast_natCast, Int.toNat_of_nonneg hpos.le]
  have hn1 : (1:ℚ) ≤ (((⌈(d / 60) / (11:ℚ)⌉).toNat : ℕ) : ℚ) := by
    rw [hcast]
    exact_mod_cast hpos
  have hnpos : (0:ℚ) < (((⌈(d / 60) / (11:ℚ)⌉).toNat : ℕ) : ℚ) := lt_of_lt_of_le one_pos hn1
  refine ⟨by omega, by positivity, ?_⟩
  have h60 : d / (((⌈(d / 60) / (11:ℚ)⌉).toNat : ℕ) : ℚ) / 60
      = (d / 60) / (((⌈(d / 60) / (11:ℚ)⌉).toNat : ℕ) : ℚ) := by ring
  rw [h60, div_le_iff₀ hnpos, hcast]
  have := (div_le_iff₀ (by norm_num : (0:ℚ) < 11)).mp hle
  linarith

/-- Appending anything to the fixed multi-day note prefix cannot give the
empty string. -/
lemma multi_notes_ne_empty (s t : String) : ("Multi-day trip - " ++ s) ++ t ≠ "" := by
  intro h
  have h2 : (("Multi-day trip - " ++ s) ++ t).data = "".data := congrArg String.data h
  rcases s with ⟨l⟩
  rcases t with ⟨m⟩
  simp [String.append, List.append_eq_nil] at h2

/-! ## Concrete-instance helper lemmas -/

lemma single_day_possible_eq_false_iff (d c : ℚ) :
    single_day_possible d c = false ↔
      ¬(d / 60 ≤ 11 ∧ d / 60 + 2 * 1 + (⌊d / 1000⌋ : ℚ) * (1/2) ≤ 14 ∧
        c + (d / 60 + 2 * 1 + (⌊d / 1000⌋ : ℚ) * (1/2)) ≤ 70) := by
  rw [Bool.eq_false_iff, Ne, single_day_possible_iff]

lemma single_600 : single_day_possible 600 0 = true := by
  rw [single_day_possible_iff]; norm_num

lemma single_660 : single_day_possible 660 0 = true := by
  rw [single_day_possible_iff]; norm_num

lemma single_neg60 : single_day_possible (-60) 0 = true := by
  rw [single_day_possible_iff]; norm_num

lemma multi_700 : single_day_possible 700 0 = false := by
  rw [single_day_possible_eq_false_iff]; norm_num

lemma multi_1200 : single_day_possible 1200 0 = false := by
  rw [single_day_possible_eq_false_iff]; norm_num

lemma multi_1800 : single_day_possible 1800 0 = false := by
  rw [single_day_possible_eq_false_iff]; norm_num

lemma ceil_700 : ⌈(700:ℚ) / 60 / MAX_DRIVING_HOURS⌉ = 2 := by
  rw [MAX_DRIVING_HOURS, show ((700:ℚ)/60/11) = 35/33 from by norm_num,
    Int.ceil_eq_iff]
  norm_num

lemma ceil_1200 : ⌈(1200:ℚ) / 60 / MAX_DRIVING_HOURS⌉ = 2 := by
  rw [MAX_DRIVING_HOURS, show ((1200:ℚ)/60/11) = 20/11 from by norm_num,
    Int.ceil_eq_iff]
  norm_num

lemma ceil_1800 : ⌈(1800:ℚ) / 60 / MAX_DRIVING_HOURS⌉ = 3 := by
  rw [MAX_DRIVING_HOURS, show ((1800:ℚ)/60/11) = 30/11 from by norm_num,
    Int.ceil_eq_iff]
  norm_num

lemma num_days_multi (d dh : ℚ) (cur pick drop : String) (today : ℤ) :
    (generate_multi_day_trip d dh cur pick drop today).num_days
      = ((⌈dh / MAX_DRIVING_HOURS⌉).toNat : ℤ) := rfl

lemma driving_sum_eq_totals (tl : List DutySegment) :
    driving_sum tl = (calculate_daily_totals tl).driving := by
  rw [calculate_daily_totals_eq]; rfl

/-- Claim C2 (confirmed): dispatch rule and boundary examples. -/
theorem C2_dispatch_rule :
    (∀ d c : ℚ, ∀ cur pick drop : String, ∀ today : ℤ,
      calculate_trip d c cur pick drop today =
        (if single_day_possible d c then
          generate_single_day_trip d (d / 60) (d / 60 + 2 * 1 + (⌊d / 1000⌋ : ℚ) * (1/2))
            ⌊d / 1000⌋ ⌊d / 60 / 8⌋ cur pick drop today
        else generate_multi_day_trip d (d / 60) cur pick drop today) ∧
      (single_day_possible d c = true ↔
        d / 60 ≤ 11 ∧ d / 60 + 2 * 1 + (⌊d / 1000⌋ : ℚ) * (1/2) ≤ 14 ∧
          c + (d / 60 + 2 * 1 + (⌊d / 1000⌋ : ℚ) * (1/2)) ≤ 70)) ∧
    single_day_possible 600 0 = true ∧
    (calculate_trip 600 0 "A" "B" "C" 0).num_days = 1 ∧
    single_day_possible 700 0 = false ∧
    (calculate_trip 700 0 "A" "B" "C" 0).num_days = 2 := by
  refine ⟨fun d c cur pick drop today =>
    ⟨calculate_trip_dispatch d c cur pick drop today, single_day_possible_iff d c⟩,
    single_600, ?_, multi_700, ?_⟩
  · rw [calculate_trip_dispatch, if_pos single_600]
    rfl
  · rw [calculate_trip_dispatch, if_neg (by simp [multi_700]), num_days_multi, ceil_700]
    rfl

/-- Claim C9 (confirmed): both generators self-certify: `is_compliant` is
always `true` with a non-empty note, hence so is every `calculate_trip`
result, on either path. -/
theorem C9_self_certify :
    (∀ d dh td : ℚ, ∀ nf b : ℤ, ∀ cur pick drop : String, ∀ today : ℤ,
      (generate_single_day_trip d dh td nf b cur pick drop today).is_compliant = true ∧
      (generate_single_day_trip d dh td nf b cur pick drop today).compliance_notes ≠ "") ∧
    (∀ d dh : ℚ, ∀ cur pick drop : String, ∀ today : ℤ,
      (generate_multi_day_trip d dh cur pick drop today).is_compliant = true ∧
      (generate_multi_day_trip d dh cur pick drop today).compliance_notes ≠ "") ∧
    (∀ d c : ℚ, ∀ cur pick drop : String, ∀ today : ℤ,
      (calculate_trip d c cur pick drop today).is_compliant = true ∧
      (calculate_trip d c cur pick drop today).compliance_notes ≠ "") := by
  have hs : ∀ d dh td : ℚ, ∀ nf b : ℤ, ∀ cur pick drop : String, ∀ today : ℤ,
      (generate_single_day_trip d dh td nf b cur pick drop today).is_compliant = true ∧
      (generate_single_day_trip d dh td nf b cur pick drop today).compliance_notes ≠ "" := by
    intro d dh td nf b cur pick drop today
    refine ⟨rfl, ?_⟩
    show "Trip complies with all HOS regulations" ≠ ""
    decide
  have hm : ∀ d dh : ℚ, ∀ cur pick drop : String, ∀ today : ℤ,
      (generate_multi_day_trip d dh cur pick drop today).is_compliant = true ∧
      (generate_multi_day_trip d dh cur pick drop today).compliance_notes ≠ "" :=
    fun d dh cur pick drop today => ⟨rfl, multi_notes_ne_empty _ _⟩
  refine ⟨hs, hm, fun d c cur pick drop today => ?_⟩
  rw [calculate_trip_dispatch]
  by_cases hb : single_day_possible d c
  · rw [if_pos hb]
    exact hs d (d / 60) _ _ _ cur pick drop today
  · rw [if_neg hb]
    exact hm d (d / 60) cur pick drop today

def c5_driving_12h : List DutySegment := [⟨DRIVING, 0, 12, 12, "", ""⟩]

def c5_duty_15h : List DutySegment :=
  [⟨DRIVING, 0, 10, 10, "", ""⟩, ⟨ON_DUTY, 10, 15, 5, "", ""⟩]

def c5_all_rest : List DutySegment := [⟨OFF_DUTY, 0, 24, 24, "", ""⟩]

lemma c5_totals_1 : calculate_daily_totals c5_driving_12h = ⟨0, 0, 12, 0⟩ := by
  simp [c5_driving_12h, calculate_daily_totals_eq, status_sum_cons, status_sum_nil]

lemma c5_totals_2 : calculate_daily_totals c5_duty_15h = ⟨0, 0, 10, 5⟩ := by
  simp [c5_duty_15h, calculate_daily_totals_eq, status_sum_cons, status_sum_nil]

lemma c5_totals_3 : calculate_daily_totals c5_all_rest = ⟨24, 0, 0, 0⟩ := by
  simp [c5_all_rest, calculate_daily_totals_eq, status_sum_cons, status_sum_nil]

/-- Claim C5 (confirmed): fixed-order short-circuiting checks. -/
theorem C5_check_order :
    (∀ l : List DutySegment,
      (MAX_DRIVING_HOURS < (calculate_daily_totals l).driving →
        check_compliance l =
          (false, ComplianceMsg.exceedsDrivingLimit (calculate_daily_totals l).driving)) ∧
      ((calculate_daily_totals l).driving ≤ MAX_DRIVING_HOURS →
        MAX_DRIVING_WINDOW <
            (calculate_daily_totals l).driving + (calculate_daily_totals l).on_duty →
        check_compliance l =
          (false, ComplianceMsg.exceedsDutyWindow
            ((calculate_daily_totals l).driving + (calculate_daily_totals l).on_duty))) ∧
      ((calculate_daily_totals l).driving ≤ MAX_DRIVING_HOURS →
        (calculate_daily_totals l).driving + (calculate_daily_totals l).on_duty
            ≤ MAX_DRIVING_WINDOW →
        break_scan l 0 false = true →
        check_compliance l = (true, ComplianceMsg.compliant))) ∧
    check_compliance c5_driving_12h = (false, ComplianceMsg.exceedsDrivingLimit 12) ∧
    check_compliance c5_duty_15h = (false, ComplianceMsg.exceedsDutyWindow 15) := by
  have hgen : ∀ l : List DutySegment,
      (MAX_DRIVING_HOURS < (calculate_daily_totals l).driving →
        check_compliance l =
          (false, ComplianceMsg.exceedsDrivingLimit (calculate_daily_totals l).driving)) ∧
      ((calculate_daily_totals l).driving ≤ MAX_DRIVING_HOURS →
        MAX_DRIVING_WINDOW <
            (calculate_daily_totals l).driving + (calculate_daily_totals l).on_duty →
        check_compliance l =
          (false, ComplianceMsg.exceedsDutyWindow
            ((calculate_daily_totals l).driving + (calculate_daily_totals l).on_duty))) ∧
      ((calculate_daily_totals l).driving ≤ MAX_DRIVING_HOURS →
        (calculate_daily_totals l).driving + (calculate_daily_totals l).on_duty
            ≤ MAX_DRIVING_WINDOW →
        break_scan l 0 false = true →
        check_compliance l = (true, ComplianceMsg.compliant)) := by
    intro l
    refine ⟨fun h => ?_, fun h1 h2 => ?_, fun h1 h2 h3 => ?_⟩
    · simp [check_compliance, h]
    · simp [check_compliance, not_lt.mpr h1, h2]
    · simp [check_compliance, not_lt.mpr h1, not_lt.mpr h2, h3]
  refine ⟨hgen, ?_, ?_⟩
  · have := (hgen c5_driving_12h).1 (by rw [c5_totals_1, MAX_DRIVING_HOURS]; norm_num)
    rw [c5_totals_1] at this
    exact this
  · have := (hgen c5_duty_15h).2.1
      (by rw [c5_totals_2, MAX_DRIVING_HOURS]; norm_num)
      (by rw [c5_totals_2, MAX_DRIVING_WINDOW]; norm_num)
    rw [c5_totals_2] at this
    norm_num at this
    exact this

/-- Witness for C5: the conditional clauses instantiated at concrete
hand-built timelines. -/
theorem C5_check_order_witness :
    check_compliance c5_driving_12h = (false, ComplianceMsg.exceedsDrivingLimit 12) ∧
    check_compliance c5_duty_15h = (false, ComplianceMsg.exceedsDutyWindow 15) ∧
    check_compliance c5_all_rest = (true, ComplianceMsg.compliant) := by
  refine ⟨C5_check_order.2.1, C5_check_order.2.2, ?_⟩
  have h3 := (C5_check_order.1 c5_all_rest).2.2
    (by rw [c5_totals_3, MAX_DRIVING_HOURS]; norm_num)
    (by rw [c5_totals_3, MAX_DRIVING_WINDOW]; norm_num)
    (by simp [c5_all_rest, break_scan])
  exact h3

lemma floor_660_break : (0:ℤ) < ⌊(660:ℚ) / 60 / 8⌋ := by norm_num

lemma c1_timeline_660 :
    (calculate_trip 660 0 "A" "B" "C" 0).log_sheets.headI.timeline
      = single_day_timeline 660 ⌊(660:ℚ) / 60 / 8⌋ "A" "B" "C" := by
  rw [calculate_trip_dispatch, if_pos single_660]
  rfl

/-- Counterexample to claim C1: 660 miles at cycle 0 is dispatched to the
single-day builder, but the generated day has Driving + OnDuty = 14.5
hours, so the second (14-hour window) check of `check_compliance` fails on
the returned day's timeline. -/
theorem C1_counterexample :
    single_day_possible 660 0 = true ∧
    (calculate_trip 660 0 "A" "B" "C" 0).num_days = 1 ∧
    check_compliance ((calculate_trip 660 0 "A" "B" "C" 0).log_sheets.headI.timeline)
      = (false, ComplianceMsg.exceedsDutyWindow (29/2)) := by
  have hT := single_day_totals 660 ⌊(660:ℚ) / 60 / 8⌋ "A" "B" "C"
  have hdr : (calculate_daily_totals
      (single_day_timeline 660 ⌊(660:ℚ) / 60 / 8⌋ "A" "B" "C")).driving = 11 := by
    rw [hT.1]; norm_num
  have hon : (calculate_daily_totals
      (single_day_timeline 660 ⌊(660:ℚ) / 60 / 8⌋ "A" "B" "C")).on_duty = 7/2 := by
    rw [hT.2, if_pos floor_660_break]; norm_num
  refine ⟨single_660, ?_, ?_⟩
  · rw [calculate_trip_dispatch, if_pos single_660]
    rfl
  · rw [c1_timeline_660]
    rw [check_compliance]
    simp only [hdr, hon, MAX_DRIVING_HOURS, MAX_DRIVING_WINDOW]
    norm_num

lemma total_driving_multi (d dh : ℚ) (cur pick drop : String) (today : ℤ) :
    (generate_multi_day_trip d dh cur pick drop today).total_driving_hours
      = ((generate_multi_day_trip d dh cur pick drop today).log_sheets.map
          fun s => s.totals.driving).sum := rfl

lemma c10_plan : calculate_trip 1200 0 "A" "B" "C" 0
    = generate_multi_day_trip 1200 (1200/60) "A" "B" "C" 0 := by
  rw [calculate_trip_dispatch, if_neg (by simp [multi_1200])]

lemma c10_sheets : (generate_multi_day_trip 1200 (1200/60) "A" "B" "C" 0).log_sheets
    = [multi_day_sheet (1200 / ((2:ℕ):ℚ)) 2 0 "A" "B" "C" 0,
       multi_day_sheet (1200 / ((2:ℕ):ℚ)) 2 1 "A" "B" "C" 0] := by
  have hn : (⌈(1200:ℚ)/60 / MAX_DRIVING_HOURS⌉).toNat = 2 := by rw [ceil_1200]; rfl
  simp only [generate_multi_day_trip, hn]
  rfl

lemma c10_dd : ((1200:ℚ) / ((2:ℕ):ℚ)) / AVERAGE_SPEED_MPH = 10 := by
  rw [AVERAGE_SPEED_MPH]; push_cast; norm_num

lemma c10_driving_0 :
    (multi_day_sheet (1200 / ((2:ℕ):ℚ)) 2 0 "A" "B" "C" 0).totals.driving = 9 := by
  show (calculate_daily_totals (multi_day_timeline (decide ((0:ℕ) = 0)) (decide ((0:ℕ) = 2 - 1))
      ((1200 / ((2:ℕ):ℚ)) / AVERAGE_SPEED_MPH) "A" "B" "C")).driving = 9
  rw [c10_dd, (multi_day_totals _ _ 10 "A" "B" "C").1]
  norm_num [min_def]

lemma c10_driving_1 :
    (multi_day_sheet (1200 / ((2:ℕ):ℚ)) 2 1 "A" "B" "C" 0).totals.driving = 8 := by
  show (calculate_daily_totals (multi_day_timeline (decide ((1:ℕ) = 0)) (decide ((1:ℕ) = 2 - 1))
      ((1200 / ((2:ℕ):ℚ)) / AVERAGE_SPEED_MPH) "A" "B" "C")).driving = 8
  rw [c10_dd, (multi_day_totals _ _ 10 "A" "B" "C").1]
  norm_num [min_def]

/-- Claim C10 (confirmed): for 1200 miles the multi-day plan reports 2
days whose per-day miles sum to the full 1200, but the total scheduled
Driving time is 17 hours, strictly less than 1200/60 = 20 hours. -/
theorem C10_driving_deficit :
    (calculate_trip 1200 0 "A" "B" "C" 0).num_days = 2 ∧
    ((calculate_trip 1200 0 "A" "B" "C" 0).log_sheets.map fun s =>
      driving_sum s.timeline).sum = 17 ∧
    (calculate_trip 1200 0 "A" "B" "C" 0).total_driving_hours = 17 ∧
    ((calculate_trip 1200 0 "A" "B" "C" 0).log_sheets.map fun s =>
      s.total_miles).sum = 1200 ∧
    (17:ℚ) < 1200 / 60 := by
  have hds0 : driving_sum ((multi_day_sheet (1200 / ((2:ℕ):ℚ)) 2 0 "A" "B" "C" 0).timeline)
      = (multi_day_sheet (1200 / ((2:ℕ):ℚ)) 2 0 "A" "B" "C" 0).totals.driving :=
    driving_sum_eq_totals _
  have hds1 : driving_sum ((multi_day_sheet (1200 / ((2:ℕ):ℚ)) 2 1 "A" "B" "C" 0).timeline)
      = (multi_day_sheet (1200 / ((2:ℕ):ℚ)) 2 1 "A" "B" "C" 0).totals.driving :=
    driving_sum_eq_totals _
  refine ⟨?_, ?_, ?_, ?_, by norm_num⟩
  · rw [c10_plan, num_days_multi, ceil_1200]
    rfl
  · rw [c10_plan, c10_sheets]
    simp only [List.map_cons, List.map_nil, List.sum_cons, List.sum_nil]
    rw [hds0, hds1, c10_driving_0, c10_driving_1]
    norm_num
  · rw [c10_plan, total_driving_multi, c10_sheets]
    simp only [List.map_cons, List.map_nil, List.sum_cons, List.sum_nil]
    rw [c10_driving_0, c10_driving_1]
    norm_num
  · rw [c10_plan, c10_sheets]
    simp only [List.map_cons, List.map_nil, List.sum_cons, List.sum_nil]
    show (1200:ℚ) / ((2:ℕ):ℚ) + ((1200:ℚ) / ((2:ℕ):ℚ) + 0) = 1200
    push_cast
    norm_num

lemma trip_create_valid_iff (c : ℚ) (cur pick drop : String) :
    trip_create_valid c cur pick drop = true ↔
      (cur ≠ "" ∧ cur.length ≤ 255 ∧ pick ≠ "" ∧ pick.length ≤ 255 ∧
       drop ≠ "" ∧ drop.length ≤ 255 ∧ 0 ≤ c ∧ c ≤ 70) := by
  simp [trip_create_valid, and_assoc]

lemma valid_cycle0 : trip_create_valid 0 "A" "B" "C" = true := by
  rw [trip_create_valid_iff]
  refine ⟨by decide, by decide, by decide, by decide, by decide, by decide,
    le_refl 0, by norm_num⟩

/-- Claim C8 (corrected): the request serializer rejects out-of-range
cycle hours and empty location names before the calculator runs, but no
component validates `distance_miles`; the core itself performs no input
checks. -/
theorem C8_validation :
    (∀ c : ℚ, ∀ cur pick drop : String,
      trip_create_valid c cur pick drop = true ↔
        (cur ≠ "" ∧ cur.length ≤ 255 ∧ pick ≠ "" ∧ pick.length ≤ 255 ∧
         drop ≠ "" ∧ drop.length ≤ 255 ∧ 0 ≤ c ∧ c ≤ 70)) ∧
    (∀ d c : ℚ, ∀ cur pick drop : String, ∀ today : ℤ,
      trip_create_valid c cur pick drop = false →
      handle_create d c cur pick drop today = none) ∧
    (∀ d c : ℚ, ∀ cur pick drop : String, ∀ today : ℤ,
      trip_create_valid c cur pick drop = true →
      handle_create d c cur pick drop today
        = some (calculate_trip d c cur pick drop today)) := by
  refine ⟨trip_create_valid_iff, ?_, ?_⟩
  · intro d c cur pick drop today h
    simp [handle_create, h]
  · intro d c cur pick drop today h
    simp [handle_create, h]

/-- Witness for C8: a request with negative cycle hours is rejected
before scheduling; a valid request reaches the calculator. -/
theorem C8_validation_witness :
    trip_create_valid (-1) "A" "B" "C" = false ∧
    handle_create 600 (-1) "A" "B" "C" 0 = none ∧
    handle_create 600 0 "A" "B" "C" 0 = some (calculate_trip 600 0 "A" "B" "C" 0) := by
  have hf : trip_create_valid (-1) "A" "B" "C" = false := by
    rw [Bool.eq_false_iff, Ne, trip_create_valid_iff]
    intro h
    have := h.2.2.2.2.2.2.1
    norm_num at this
  exact ⟨hf, C8_validation.2.1 600 (-1) "A" "B" "C" 0 hf,
    C8_validation.2.2 600 0 "A" "B" "C" 0 valid_cycle0⟩

/-- Counterexample to claim C8: nothing rejects a non-positive distance —
the only validated fields are the cycle hours and the location names, and
the core happily builds a plan for distance −60 once the request fields
pass validation. -/
theorem C8_counterexample :
    trip_create_valid 0 "A" "B" "C" = true ∧
    handle_create (-60) 0 "A" "B" "C" 0
      = some (calculate_trip (-60) 0 "A" "B" "C" 0) ∧
    (calculate_trip (-60) 0 "A" "B" "C" 0).num_days = 1 := by
  refine ⟨valid_cycle0, by simp [handle_create, valid_cycle0], ?_⟩
  rw [calculate_trip_dispatch, if_pos single_neg60]
  rfl

lemma single_log_sheets (d dh td : ℚ) (nf b : ℤ) (cur pick drop : String) (today : ℤ) :
    (generate_single_day_trip d dh td nf b cur pick drop today).log_sheets =
      [{ day_number := 1, date := today,
         timeline := single_day_timeline d b cur pick drop,
         totals := calculate_daily_totals (single_day_timeline d b cur pick drop),
         remarks := single_day_remarks b cur pick drop,
         total_miles := d }] := rfl

/-- Every sheet of any returned plan stores the aggregated totals of its
own timeline, and that timeline partitions `[0, 24]`. -/
lemma trip_sheet_shape (d c : ℚ) (cur pick drop : String) (today : ℤ) (hd : 0 < d) :
    ∀ sheet ∈ (calculate_trip d c cur pick drop today).log_sheets,
      sheet.totals = calculate_daily_totals sheet.timeline ∧
      partitions24 sheet.timeline = true := by
  intro sheet hs
  rw [calculate_trip_dispatch] at hs
  by_cases hsingle : single_day_possible d c
  · rw [if_pos hsingle, single_log_sheets, List.mem_singleton] at hs
    subst hs
    have hmax : d / 60 ≤ 11 := ((single_day_possible_iff d c).mp hsingle).1
    exact ⟨rfl, single_day_timeline_covers d _ cur pick drop hd.le hmax⟩
  · rw [if_neg hsingle] at hs
    obtain ⟨day, hday, rfl⟩ := mem_multi_log_sheets hs
    obtain ⟨hn1, hdd0, hdd11⟩ := daily_driving_bounds d hd
    exact ⟨rfl, multi_day_timeline_covers _ _ _ cur pick drop hdd0⟩

/-- Claim C3 (confirmed): for valid inputs every returned day's segments
partition `[0, 24]` exactly — consecutive segments abut, durations are
nonnegative and equal `end - start`, the first starts at 0 and the last
ends at 24 — on both the single-day and multi-day paths. -/
theorem C3_partition (d c : ℚ) (cur pick drop : String) (today : ℤ)
    (hd : 0 < d) (hc0 : 0 ≤ c) (hc70 : c ≤ 70) :
    ∀ sheet ∈ (calculate_trip d c cur pick drop today).log_sheets,
      partitions24 sheet.timeline = true :=
  fun sheet hs => (trip_sheet_shape d c cur pick drop today hd sheet hs).2

/-- Witness for C3: the single day of the 600-mile plan. -/
theorem C3_partition_witness :
    (0:ℚ) < 600 ∧ (0:ℚ) ≤ 0 ∧ (0:ℚ) ≤ 70 ∧
    partitions24 ((calculate_trip 600 0 "A" "B" "C" 0).log_sheets.headI.timeline)
      = true := by
  have hmem : (calculate_trip 600 0 "A" "B" "C" 0).log_sheets.headI
      ∈ (calculate_trip 600 0 "A" "B" "C" 0).log_sheets := by
    rw [calculate_trip_dispatch, if_pos single_600, single_log_sheets]
    simp
  exact ⟨by norm_num, le_refl 0, by norm_num,
    C3_partition 600 0 "A" "B" "C" 0 (by norm_num) (le_refl 0) (by norm_num) _ hmem⟩

lemma totals_spec_of_partition (tl : List DutySegment) (hp : partitions24 tl = true) :
    (calculate_daily_totals tl).off_duty = status_sum OFF_DUTY tl ∧
    (calculate_daily_totals tl).sleeper_berth = status_sum SLEEPER_BERTH tl ∧
    (calculate_daily_totals tl).driving = status_sum DRIVING tl ∧
    (calculate_daily_totals tl).on_duty = status_sum ON_DUTY tl ∧
    (calculate_daily_totals tl).off_duty + (calculate_daily_totals tl).sleeper_berth +
      (calculate_daily_totals tl).driving + (calculate_daily_totals tl).on_duty = 24 := by
  refine ⟨?_, ?_, ?_, ?_, totals_sum_24 tl hp⟩ <;> rw [calculate_daily_totals_eq]

/-- Claim C7 (confirmed): each returned day's stored totals are exactly the
per-status sums of that day's own segments (so re-aggregation reproduces
them), and the four totals sum to exactly 24. -/
theorem C7_totals_consistency (d c : ℚ) (cur pick drop : String) (today : ℤ)
    (hd : 0 < d) (hc0 : 0 ≤ c) (hc70 : c ≤ 70) :
    ∀ sheet ∈ (calculate_trip d c cur pick drop today).log_sheets,
      sheet.totals = calculate_daily_totals sheet.timeline ∧
      sheet.totals.off_duty = status_sum OFF_DUTY sheet.timeline ∧
      sheet.totals.sleeper_berth = status_sum SLEEPER_BERTH sheet.timeline ∧
      sheet.totals.driving = status_sum DRIVING sheet.timeline ∧
      sheet.totals.on_duty = status_sum ON_DUTY sheet.timeline ∧
      sheet.totals.off_duty + sheet.totals.sleeper_berth + sheet.totals.driving +
        sheet.totals.on_duty = 24 := by
  intro sheet hs
  obtain ⟨ht, hp⟩ := trip_sheet_shape d c cur pick drop today hd sheet hs
  obtain ⟨h1, h2, h3, h4, h5⟩ := totals_spec_of_partition sheet.timeline hp
  rw [ht]
  exact ⟨rfl, h1, h2, h3, h4, h5⟩

/-- Witness for C7: the single day of the 600-mile plan. -/
theorem C7_totals_consistency_witness :
    (0:ℚ) < 600 ∧ (0:ℚ) ≤ 0 ∧ (0:ℚ) ≤ 70 ∧
    ((calculate_trip 600 0 "A" "B" "C" 0).log_sheets.headI.totals.off_duty +
     (calculate_trip 600 0 "A" "B" "C" 0).log_sheets.headI.totals.sleeper_berth +
     (calculate_trip 600 0 "A" "B" "C" 0).log_sheets.headI.totals.driving +
     (calculate_trip 600 0 "A" "B" "C" 0).log_sheets.headI.totals.on_duty = 24) := by
  have hmem : (calculate_trip 600 0 "A" "B" "C" 0).log_sheets.headI
      ∈ (calculate_trip 600 0 "A" "B" "C" 0).log_sheets := by
    rw [calculate_trip_dispatch, if_pos single_600, single_log_sheets]
    simp
  exact ⟨by norm_num, le_refl 0, by norm_num,
    (C7_totals_consistency 600 0 "A" "B" "C" 0 (by norm_num) (le_refl 0) (by norm_num)
      _ hmem).2.2.2.2.2⟩

lemma ite_bool_le_one (b : Bool) : (if b then (1:ℚ) else 0) ≤ 1 := by
  cases b <;> norm_num

lemma ite_bool_nonneg (b : Bool) : (0:ℚ) ≤ (if b then (1:ℚ) else 0) := by
  cases b <;> norm_num

/-- Claim C1 (amended, proved): for valid inputs every returned day's
Driving total is at most 11 hours on both paths; the 14-hour
Driving+OnDuty bound holds on every day of every multi-day plan, and on
the single-day path whenever the projected driving time is at most 10.5
hours — but not in general (see the counterexample at 660 miles). -/
theorem C1_window_limits (d c : ℚ) (cur pick drop : String) (today : ℤ)
    (hd : 0 < d) (hc0 : 0 ≤ c) (hc70 : c ≤ 70) :
    ∀ sheet ∈ (calculate_trip d c cur pick drop today).log_sheets,
      sheet.totals.driving ≤ MAX_DRIVING_HOURS ∧
      (single_day_possible d c = false →
        sheet.totals.driving + sheet.totals.on_duty ≤ MAX_DRIVING_WINDOW) ∧
      (d / 60 ≤ 21/2 →
        sheet.totals.driving + sheet.totals.on_duty ≤ MAX_DRIVING_WINDOW) := by
  intro sheet hs
  rw [calculate_trip_dispatch] at hs
  rw [MAX_DRIVING_HOURS, MAX_DRIVING_WINDOW]
  by_cases hsingle : single_day_possible d c
  · rw [if_pos hsingle, single_log_sheets, List.mem_singleton] at hs
    subst hs
    have hmax : d / 60 ≤ 11 := ((single_day_possible_iff d c).mp hsingle).1
    have hT := single_day_totals d ⌊d / 60 / 8⌋ cur pick drop
    refine ⟨?_, ?_, ?_⟩
    · show (calculate_daily_totals (single_day_timeline d ⌊d / 60 / 8⌋ cur pick drop)).driving
        ≤ 11
      rw [hT.1]
      exact hmax
    · intro hfalse
      rw [hsingle] at hfalse
      cases hfalse
    · intro h105
      show (calculate_daily_totals (single_day_timeline d ⌊d / 60 / 8⌋ cur pick drop)).driving
          + (calculate_daily_totals (single_day_timeline d ⌊d / 60 / 8⌋ cur pick drop)).on_duty
          ≤ 14
      rw [hT.1, hT.2]
      by_cases hb : 0 < ⌊d / 60 / 8⌋
      · rw [if_pos hb]; linarith
      · rw [if_neg hb]; linarith
  · rw [if_neg hsingle] at hs
    obtain ⟨day, hday, rfl⟩ := mem_multi_log_sheets hs
    obtain ⟨hn1, hdd0, hdd11⟩ := daily_driving_bounds d hd
    set n := (⌈d / 60 / MAX_DRIVING_HOURS⌉).toNat with hn
    set dd := d / ((n : ℕ) : ℚ) / 60 with hdd
    have hT := multi_day_totals (decide (day = 0)) (decide (day = n - 1)) dd cur pick drop
    have hshow : (multi_day_sheet (d / ((n : ℕ) : ℚ)) n day cur pick drop today).totals
        = calculate_daily_totals
            (multi_day_timeline (decide (day = 0)) (decide (day = n - 1)) dd cur pick drop) :=
      rfl
    rw [hshow, hT.1, hT.2]
    have hm8a : min (8:ℚ) (dd/2) ≤ dd/2 := min_le_right _ _
    have hm8b : (0:ℚ) ≤ min (8:ℚ) (dd/2) := le_min (by norm_num) (by linarith)
    have hm3a : min (3:ℚ) (dd - min 8 (dd/2)) ≤ 3 := min_le_left _ _
    have hm3b : (0:ℚ) ≤ min (3:ℚ) (dd - min 8 (dd/2)) := le_min (by norm_num) (by linarith)
    have hf1 := ite_bool_le_one (decide (day = 0))
    have hf0 := ite_bool_nonneg (decide (day = 0))
    have hl1 := ite_bool_le_one (decide (day = n - 1))
    have hl0 := ite_bool_nonneg (decide (day = n - 1))
    refine ⟨by linarith, fun _ => by linarith, fun _ => by linarith⟩

/-- Witness for C1: the single day of the 600-mile plan satisfies both
window bounds. -/
theorem C1_window_limits_witness :
    (0:ℚ) < 600 ∧ (0:ℚ) ≤ 0 ∧ (0:ℚ) ≤ 70 ∧ (600:ℚ) / 60 ≤ 21/2 ∧
    ((calculate_trip 600 0 "A" "B" "C" 0).log_sheets.headI.totals.driving
        ≤ MAX_DRIVING_HOURS ∧
     (calculate_trip 600 0 "A" "B" "C" 0).log_sheets.headI.totals.driving +
       (calculate_trip 600 0 "A" "B" "C" 0).log_sheets.headI.totals.on_duty
        ≤ MAX_DRIVING_WINDOW) := by
  have hmem : (calculate_trip 600 0 "A" "B" "C" 0).log_sheets.headI
      ∈ (calculate_trip 600 0 "A" "B" "C" 0).log_sheets := by
    rw [calculate_trip_dispatch, if_pos single_600, single_log_sheets]
    simp
  have h := C1_window_limits 600 0 "A" "B" "C" 0 (by norm_num) (le_refl 0) (by norm_num)
    _ hmem
  exact ⟨by norm_num, le_refl 0, by norm_num, by norm_num,
    h.1, h.2.2 (by norm_num)⟩

lemma multi_sheets_length (d dh : ℚ) (cur pick drop : String) (today : ℤ) :
    (generate_multi_day_trip d dh cur pick drop today).log_sheets.length
      = (⌈dh / MAX_DRIVING_HOURS⌉).toNat := by
  simp [generate_multi_day_trip]

lemma multi_sheets_get (d dh : ℚ) (cur pick drop : String) (today : ℤ)
    (i : ℕ) (h : i < (generate_multi_day_trip d dh cur pick drop today).log_sheets.length) :
    (generate_multi_day_trip d dh cur pick drop today).log_sheets.get ⟨i, h⟩
      = multi_day_sheet (d / (((⌈dh / MAX_DRIVING_HOURS⌉).toNat : ℕ) : ℚ))
          (⌈dh / MAX_DRIVING_HOURS⌉).toNat i cur pick drop today := by
  simp [generate_multi_day_trip, List.get_eq_getElem, List.getElem_map]

/-- Claim C6 (confirmed): every plan dispatched to the multi-day builder
has `num_days = ceil((d/60)/11)` days; the sheets are numbered 1..numDays
in order and the date of the sheet at 0-based index `i` is the base date
plus `i` days; 1200 miles gives 2 days and 1800 miles gives 3. -/
theorem C6_multi_day_count :
    (∀ d c : ℚ, ∀ cur pick drop : String, ∀ today : ℤ, 0 < d →
      single_day_possible d c = false →
      ((calculate_trip d c cur pick drop today).num_days = ⌈d / 60 / 11⌉ ∧
       ((calculate_trip d c cur pick drop today).log_sheets.length : ℤ) = ⌈d / 60 / 11⌉ ∧
       ∀ i : ℕ, ∀ h : i < (calculate_trip d c cur pick drop today).log_sheets.length,
         ((calculate_trip d c cur pick drop today).log_sheets.get ⟨i, h⟩).day_number
             = (i:ℤ) + 1 ∧
         ((calculate_trip d c cur pick drop today).log_sheets.get ⟨i, h⟩).date
             = today + (i:ℤ))) ∧
    (calculate_trip 1200 0 "A" "B" "C" 0).num_days = 2 ∧
    (calculate_trip 1800 0 "A" "B" "C" 0).num_days = 3 := by
  refine ⟨?_, ?_, ?_⟩
  · intro d c cur pick drop today hd hfalse
    have hpos : 0 < ⌈d / 60 / (11:ℚ)⌉ := Int.ceil_pos.mpr (by positivity)
    have hmax11 : (⌈d / 60 / MAX_DRIVING_HOURS⌉ : ℤ) = ⌈d / 60 / 11⌉ := by
      rw [MAX_DRIVING_HOURS]
    have hdisp : calculate_trip d c cur pick drop today
        = generate_multi_day_trip d (d / 60) cur pick drop today := by
      rw [calculate_trip_dispatch, if_neg (by simp [hfalse])]
    refine ⟨?_, ?_, ?_⟩
    · rw [hdisp, num_days_multi, hmax11, Int.toNat_of_nonneg hpos.le]
    · rw [hdisp]
      rw [show ((generate_multi_day_trip d (d / 60) cur pick drop today).log_sheets.length : ℤ)
          = ((⌈d / 60 / MAX_DRIVING_HOURS⌉).toNat : ℤ) by
        rw [multi_sheets_length]]
      rw [hmax11, Int.toNat_of_nonneg hpos.le]
    · rw [hdisp]
      intro i h
      rw [multi_sheets_get]
      exact ⟨rfl, rfl⟩
  · rw [calculate_trip_dispatch, if_neg (by simp [multi_1200]), num_days_multi, ceil_1200]
    rfl
  · rw [calculate_trip_dispatch, if_neg (by simp [multi_1800]), num_days_multi, ceil_1800]
    rfl

/-- Witness for C6: the 1200-mile multi-day plan. -/
theorem C6_multi_day_count_witness :
    (0:ℚ) < 1200 ∧ single_day_possible 1200 0 = false ∧
    (calculate_trip 1200 0 "A" "B" "C" 5).num_days = ⌈(1200:ℚ) / 60 / 11⌉ :=
  ⟨by norm_num, multi_1200,
    (C6_multi_day_count.1 1200 0 "A" "B" "C" 5 (by norm_num) multi_1200).1⟩

/-! ## Break-scan characterisation -/

lemma break_scan_had (l : List DutySegment) : ∀ cum : ℚ, break_scan l cum true = true := by
  induction l with
  | nil => intro cum; rfl
  | cons e rest ih =>
    intro cum
    obtain ⟨st, sh, eh, du, loc, de⟩ := e
    cases st <;> simp [break_scan, ih]

lemma break_scan_false_iff (l : List DutySegment) : ∀ cum : ℚ,
    break_scan l cum false = false ↔
      ∃ l₁ e l₂, l = l₁ ++ e :: l₂ ∧ e.status = DRIVING ∧
        BREAK_REQUIRED_AFTER_DRIVING < cum + driving_sum (l₁ ++ [e]) ∧
        ∀ b ∈ l₁, ¬ is_qualifying_break b := by
  induction l with
  | nil =>
    intro cum
    constructor
    · intro h
      simp [break_scan] at h
    · rintro ⟨l₁, e, l₂, h, -⟩
      cases l₁ <;> simp at h
  | cons hd tl ih =>
    intro cum
    cases hst : hd.status
    case DRIVING =>
      by_cases hgt : BREAK_REQUIRED_AFTER_DRIVING < cum + hd.duration
      · rw [show break_scan (hd :: tl) cum false = false from by
          simp only [break_scan, hst]; rw [if_pos ⟨hgt, trivial⟩]]
        constructor
        · intro _
          refine ⟨[], hd, tl, rfl, hst, ?_, by simp⟩
          simpa [driving_sum, status_sum_cons, status_sum_nil, hst] using hgt
        · intro _
          rfl
      · have hred : break_scan (hd :: tl) cum false
            = break_scan tl (cum + hd.duration) false := by
          simp only [break_scan, hst]
          rw [if_neg (fun hc => hgt hc.1)]
        rw [hred, ih (cum + hd.duration)]
        constructor
        · rintro ⟨l₁, e, l₂, heq, hest, hsum, hnb⟩
          refine ⟨hd :: l₁, e, l₂, by simp [heq], hest, ?_, ?_⟩
          · rw [List.cons_append, driving_sum, status_sum_cons, hst, if_pos rfl]
            rw [driving_sum] at hsum
            linarith
          · intro b hb
            rcases List.mem_cons.mp hb with rfl | hb2
            · rintro ⟨hs3, -⟩
              rw [hst] at hs3
              rcases hs3 with h | h | h <;> simp at h
            · exact hnb b hb2
        · rintro ⟨l₁, e, l₂, heq, hest, hsum, hnb⟩
          cases l₁ with
          | nil =>
            simp only [List.nil_append, List.cons.injEq] at heq
            obtain ⟨rfl, rfl⟩ := heq
            refine absurd ?_ hgt
            simpa [driving_sum, status_sum_cons, status_sum_nil, hst] using hsum
          | cons b l₁ =>
            simp only [List.cons_append, List.cons.injEq] at heq
            obtain ⟨rfl, htl⟩ := heq
            refine ⟨l₁, e, l₂, htl, hest, ?_, fun x hx => hnb x (List.mem_cons_of_mem _ hx)⟩
            rw [List.cons_append, driving_sum, status_sum_cons, hst, if_pos rfl] at hsum
            rw [driving_sum]
            linarith
    all_goals (
      by_cases hq : MIN_BREAK_DURATION ≤ hd.duration
      · rw [show break_scan (hd :: tl) cum false
            = break_scan tl cum (false || decide (MIN_BREAK_DURATION ≤ hd.duration)) from by
          simp only [break_scan, hst]]
        rw [decide_eq_true hq, Bool.or_true, break_scan_had tl cum]
        constructor
        · intro h
          simp at h
        · rintro ⟨l₁, e, l₂, heq, hest, hsum, hnb⟩
          cases l₁ with
          | nil =>
            simp only [List.nil_append, List.cons.injEq] at heq
            obtain ⟨rfl, rfl⟩ := heq
            rw [hst] at hest
            simp at hest
          | cons b l₁ =>
            simp only [List.cons_append, List.cons.injEq] at heq
            obtain ⟨rfl, htl⟩ := heq
            refine absurd ⟨?_, hq⟩ (hnb hd (List.mem_cons_self _ _))
            rw [hst]
            simp
      · rw [show break_scan (hd :: tl) cum false
            = break_scan tl cum (false || decide (MIN_BREAK_DURATION ≤ hd.duration)) from by
          simp only [break_scan, hst]]
        rw [decide_eq_false hq, Bool.or_false, ih cum]
        constructor
        · rintro ⟨l₁, e, l₂, heq, hest, hsum, hnb⟩
          refine ⟨hd :: l₁, e, l₂, by simp [heq], hest, ?_, ?_⟩
          · rw [List.cons_append, driving_sum, status_sum_cons, hst, if_neg (by simp)]
            rw [driving_sum] at hsum
            linarith
          · intro b hb
            rcases List.mem_cons.mp hb with rfl | hb2
            · rintro ⟨-, hd2⟩
              exact hq hd2
            · exact hnb b hb2
        · rintro ⟨l₁, e, l₂, heq, hest, hsum, hnb⟩
          cases l₁ with
          | nil =>
            simp only [List.nil_append, List.cons.injEq] at heq
            obtain ⟨rfl, rfl⟩ := heq
            rw [hst] at hest
            simp at hest
          | cons b l₁ =>
            simp only [List.cons_append, List.cons.injEq] at heq
            obtain ⟨rfl, htl⟩ := heq
            refine ⟨l₁, e, l₂, htl, hest, ?_,
              fun x hx => hnb x (List.mem_cons_of_mem _ hx)⟩
            rw [List.cons_append, driving_sum, status_sum_cons, hst, if_neg (by simp)] at hsum
            rw [driving_sum]
            linarith)

def c4_nine_hours : List DutySegment := [⟨DRIVING, 0, 9, 9, "", ""⟩]

def c4_nine_hours_with_break : List DutySegment :=
  [⟨DRIVING, 0, 4, 4, "", ""⟩, ⟨ON_DUTY, 4, 9/2, 1/2, "", ""⟩,
   ⟨DRIVING, 9/2, 19/2, 5, "", ""⟩]

/-- Claim C4 (confirmed): the break scan of `check_compliance` fails iff
some Driving segment pushes the never-reset cumulative driving total above
8 hours with no qualifying break (OnDuty/OffDuty/SleeperBerth of duration
at least 0.5) anywhere earlier in scan order; an earlier qualifying break
makes the scan pass no matter how much driving follows.  A 9-hour
uninterrupted-driving timeline is rejected with the missing-break message;
the same driving with a half-hour OnDuty break inserted passes. -/
theorem C4_break_scan_rule :
    (∀ l : List DutySegment, break_scan l 0 false = false ↔ scan_fails_spec l) ∧
    check_compliance c4_nine_hours = (false, ComplianceMsg.missingBreak) ∧
    check_compliance c4_nine_hours_with_break = (true, ComplianceMsg.compliant) := by
  refine ⟨fun l => ?_, ?_, ?_⟩
  · rw [break_scan_false_iff l 0]
    unfold scan_fails_spec
    simp only [zero_add]
  · have e : calculate_daily_totals c4_nine_hours = ⟨0, 0, 9, 0⟩ := by
      simp [c4_nine_hours, calculate_daily_totals_eq, status_sum_cons, status_sum_nil]
    have hscan : break_scan c4_nine_hours 0 false = false := by
      norm_num [c4_nine_hours, break_scan, BREAK_REQUIRED_AFTER_DRIVING]
    rw [check_compliance]
    simp only [e, hscan]
    norm_num [MAX_DRIVING_HOURS, MAX_DRIVING_WINDOW]
  · have e : calculate_daily_totals c4_nine_hours_with_break = ⟨0, 0, 9, 1/2⟩ := by
      simp [c4_nine_hours_with_break, calculate_daily_totals_eq, status_sum_cons,
        status_sum_nil]
      norm_num
    have hdec : decide (MIN_BREAK_DURATION ≤ (1/2:ℚ)) = true :=
      decide_eq_true (by rw [MIN_BREAK_DURATION])
    have hscan : break_scan c4_nine_hours_with_break 0 false = true := by
      rw [c4_nine_hours_with_break]
      rw [show break_scan
          [(⟨DRIVING, 0, 4, 4, "", ""⟩ : DutySegment), ⟨ON_DUTY, 4, 9/2, 1/2, "", ""⟩,
           ⟨DRIVING, 9/2, 19/2, 5, "", ""⟩] 0 false
          = break_scan [(⟨ON_DUTY, 4, 9/2, 1/2, "", ""⟩ : DutySegment),
            ⟨DRIVING, 9/2, 19/2, 5, "", ""⟩] (0 + 4) false from by
        simp only [break_scan]
        rw [if_neg (by rw [BREAK_REQUIRED_AFTER_DRIVING]; norm_num)]]
      rw [show break_scan [(⟨ON_DUTY, 4, 9/2, 1/2, "", ""⟩ : DutySegment),
            ⟨DRIVING, 9/2, 19/2, 5, "", ""⟩] (0 + 4) false
          = break_scan [(⟨DRIVING, 9/2, 19/2, 5, "", ""⟩ : DutySegment)] (0 + 4)
              (false || decide (MIN_BREAK_DURATION ≤ (1/2:ℚ))) from by
        simp only [break_scan]]
      rw [hdec, Bool.or_true]
      exact break_scan_had _ _
    rw [check_compliance]
    simp only [e, hscan]
    norm_num [MAX_DRIVING_HOURS, MAX_DRIVING_WINDOW]
